import Mathlib

/-!
Shallow embedding of the client-side scripts of the docu-flow documentation
site: `assets/js/navigation.js`, `assets/js/scroll-spy.js` and
`assets/js/theme-toggle.js` (the unnamed fourth source file is
`navigation.js` with its comments stripped, so it introduces no behaviour of
its own).

Modelling conventions:
- DOM elements are abstracted to the data the scripts read and write:
  navigation links are identified by the fragment id in their `href`,
  sections by their `id` attribute, CSS classes by booleans or by the list of
  link ids currently carrying the `active` class.
- Scroll geometry is abstracted: a programmatic scroll towards a section is
  recorded in a `scrolledTo` field rather than as a pixel position.
- The browser history is a stack of URL fragments, head = current entry;
  `pushState` conses a new entry, `replaceState` replaces the head.
- Asynchronous callbacks (the smooth-scroll animation end, the `setTimeout`
  in the initial-load handlers, intersection-observer deliveries) are
  modelled as separate state-transition functions applied when the callback
  fires.
- Fallible DOM dereferences (`querySelector(..).offsetHeight` on a missing
  element) are modelled with `Except`, the `.error` case standing for a
  thrown `TypeError`.
-/

namespace DocuFlow

/-! ## Theme controller (`theme-toggle.js`) -/

/-- Browser-visible state touched by `theme-toggle.js`: the
`data-theme` attribute on `document.documentElement` (absent before the
first `applyTheme`), the `localStorage` value under the key `theme`
(absent when never written), and the system `prefers-color-scheme: dark`
media-query result.  The toggle button's icon/label updates are derived
verbatim from the theme argument and are not tracked separately. -/
structure ThemeState where
  dataTheme : Option String
  stored : Option String
  systemDark : Bool
deriving DecidableEq

/-- JavaScript truthiness test used by `theme-toggle.js` on
`localStorage.getItem('theme')`: `null` (key absent) and the empty string
are falsy. -/
def strFalsy : Option String → Bool
  | none => true
  | some t => t = ""

/-- Resolution of the system colour scheme to a theme string, as in
`e.matches ? 'dark' : 'light'`. -/
def systemTheme (dark : Bool) : String :=
  if dark then "dark" else "light"

/-- Embeds `getTheme` (theme-toggle.js lines 6-16): return the saved theme
when truthy, else the system preference, else `light`. -/
def getTheme (s : ThemeState) : String :=
  match s.stored with
  | some t => if t = "" then systemTheme s.systemDark else t
  | none => systemTheme s.systemDark

/-- Embeds `applyTheme` (theme-toggle.js lines 19-39): set the document
attribute and unconditionally persist the value. -/
def applyTheme (s : ThemeState) (theme : String) : ThemeState :=
  { s with dataTheme := some theme, stored := some theme }

/-- Embeds `toggleTheme` (theme-toggle.js lines 42-46): read the current
document attribute, flip dark to light and anything else to dark. -/
def toggleTheme (s : ThemeState) : ThemeState :=
  let newTheme := if s.dataTheme = some "dark" then "light" else "dark"
  applyTheme s newTheme

/-- Embeds `initTheme` (theme-toggle.js lines 49-52). -/
def initTheme (s : ThemeState) : ThemeState :=
  applyTheme s (getTheme s)

/-- Embeds the `watchSystemTheme` change handler (theme-toggle.js lines
88-97): on a system colour-scheme change event with result `matchesDark`,
re-apply the system theme only when the stored value is falsy. -/
def systemThemeChange (s : ThemeState) (matchesDark : Bool) : ThemeState :=
  let s1 : ThemeState := { s with systemDark := matchesDark }
  if strFalsy s1.stored then applyTheme s1 (systemTheme matchesDark) else s1

/-! ## Shared DOM abstraction -/

/-- Static DOM facts consulted by both scripts: the `offsetHeight` of the
`.site-header` element when it is present (`none` when the page has no
site header). -/
structure Dom where
  siteHeaderHeight : Option Nat
deriving DecidableEq

/-- Embeds the `ScrollSpy` constructor's header lookup (scroll-spy.js lines
61-66): the guarded lookup falls back to 64 when `.site-header` is
absent. -/
def ScrollSpy.headerHeight (d : Dom) : Nat :=
  match d.siteHeaderHeight with
  | some h => h
  | none => 64

/-- Embeds the module-level `headerHeight` initialisation of navigation.js
(line 108): `document.querySelector('.site-header').offsetHeight`
dereferences the lookup result without a guard, so a page without a
`.site-header` element throws a `TypeError` (the `.error` case). -/
def Nav.headerHeightInit (d : Dom) : Except String Nat :=
  match d.siteHeaderHeight with
  | some h => Except.ok h
  | none => Except.error "TypeError: null has no offsetHeight"

/-! ## Scroll spy (`scroll-spy.js`) and section navigation (`navigation.js`)

Both scripts act on the same page: the same `.nav-link` elements, the same
`article section[id]` elements, the same `active` class and the same
browser history.  `PageState` is that shared state; the `isScrolling` and
`currentActive` fields live on the `ScrollSpy` instance of scroll-spy.js
(navigation.js keeps no such state and reads neither field). -/

/-- Relevant configuration fields of the `ScrollSpy` options object.  In the
deployed initialisation (`initScrollSpy`, scroll-spy.js lines 465-481) both
are `true`. -/
structure SpyConfig where
  smoothScroll : Bool
  updateURL : Bool
deriving DecidableEq

/-- Shared page state.  `links` lists the target ids (the `href` fragment
without `#`) of the `.nav-link` elements in document order; `sections`
lists the ids of the in-document target elements; `activeOf` lists the
link ids currently carrying the `active` class; `currentActive` and
`isScrolling` are the `ScrollSpy` instance fields; `history` is the
browser history stack (head = current entry, an entry's fragment is
`none` when the URL has none); `scrolledTo` records the target of the
most recent programmatic scroll. -/
structure PageState where
  links : List String
  sections : List String
  activeOf : List String
  currentActive : Option String
  isScrolling : Bool
  history : List (Option String)
  scrolledTo : Option String
deriving DecidableEq

/-- Embeds the `document.querySelector(navSelector[href="#id"])` lookup:
the first nav link whose fragment is `sectionId`, identified by that id. -/
def findNavLink (s : PageState) (sectionId : String) : Option String :=
  if sectionId ∈ s.links then some sectionId else none

/-- Embeds `classList.add`: adds the class if not already present. -/
def classAdd (cs : List String) (c : String) : List String :=
  if c ∈ cs then cs else c :: cs

/-- Embeds `ScrollSpy.prototype.updateActiveLink` (scroll-spy.js lines
304-321): remove the `active` class from every nav link, then, when a link
is given, add it to that link and record it as `currentActive`. -/
def ScrollSpy.updateActiveLink (s : PageState) (activeLink : Option String) :
    PageState :=
  let s1 : PageState := { s with activeOf := [] }
  match activeLink with
  | some l => { s1 with activeOf := classAdd s1.activeOf l, currentActive := some l }
  | none => s1

/-- Embeds `ScrollSpy.prototype.scrollToSection` (scroll-spy.js lines
204-237): set `isScrolling` (cleared immediately when `smoothScroll` is
off, otherwise cleared later by the animation-end callback), start the
scroll towards `sectionId`, update the active link to the clicked `link`
immediately, and push `#sectionId` as a new history entry when
`updateURL` is set.  The `closeMobileMenu` call only touches the drawer
state, modelled separately. -/
def ScrollSpy.scrollToSection (cfg : SpyConfig) (s : PageState)
    (sectionId link : String) : PageState :=
  let s1 : PageState := { s with isScrolling := true, scrolledTo := some sectionId }
  let s2 : PageState := if cfg.smoothScroll then s1 else { s1 with isScrolling := false }
  let s3 : PageState := ScrollSpy.updateActiveLink s2 (some link)
  if cfg.updateURL then { s3 with history := some sectionId :: s3.history } else s3

/-- Embeds the completion callback of `smoothScrollTo` (scroll-spy.js lines
216-218): when the animation's progress reaches 1 the callback clears
`isScrolling`. -/
def ScrollSpy.scrollAnimationEnd (s : PageState) : PageState :=
  { s with isScrolling := false }

/-- Embeds `ScrollSpy.prototype.setActiveLink` (scroll-spy.js lines
275-298): return unchanged while `isScrolling`; otherwise look up the nav
link for `sectionId` and, when it exists and differs from `currentActive`,
update the active link and replace the current history entry with
`#sectionId` when `updateURL` is set. -/
def ScrollSpy.setActiveLink (cfg : SpyConfig) (s : PageState)
    (sectionId : String) : PageState :=
  if s.isScrolling then s
  else
    match findNavLink s sectionId with
    | none => s
    | some link =>
      if s.currentActive = some link then s
      else
        let s1 := ScrollSpy.updateActiveLink s (some link)
        if cfg.updateURL && !s1.isScrolling then
          { s1 with history := some sectionId :: s1.history.tail }
        else s1

/-- Embeds one intersection-observer delivery of scroll-spy.js (lines
140-147): an intersecting entry for the section with id `sectionId` calls
`setActiveLink`. -/
def ScrollSpy.observerActivate (cfg : SpyConfig) (s : PageState)
    (sectionId : String) : PageState :=
  ScrollSpy.setActiveLink cfg s sectionId

/-- Embeds the click handler installed by `setupNavigation` (scroll-spy.js
lines 111-126): read the target id from the clicked link's `href`; when an
element with that id exists, scroll to it. -/
def ScrollSpy.clickNavLink (cfg : SpyConfig) (s : PageState)
    (targetId : String) : PageState :=
  if targetId ∈ s.sections then ScrollSpy.scrollToSection cfg s targetId targetId
  else s

/-- Embeds `ScrollSpy.prototype.handleInitialLoad` (scroll-spy.js lines
326-348) with the 100 ms `setTimeout` taken as fired: with a URL fragment,
scroll to it when both the nav link and the target element exist; with no
fragment, add the `active` class directly to the first nav link (no
clearing of the others) and record it as `currentActive`. -/
def ScrollSpy.handleInitialLoad (cfg : SpyConfig) (s : PageState)
    (hash : Option String) : PageState :=
  match hash with
  | some h =>
    if h ∈ s.links ∧ h ∈ s.sections then ScrollSpy.scrollToSection cfg s h h
    else s
  | none =>
    match s.links with
    | [] => s
    | l :: _ =>
      { s with activeOf := classAdd s.activeOf l, currentActive := some l }

/-- Embeds the `popstate` handler of scroll-spy.js (lines 353-370): `hash`
is `window.location.hash` after the history move; when the fragment's
target element and nav link both exist, repeat the scroll-and-activate
sequence. -/
def ScrollSpy.popstateActivate (cfg : SpyConfig) (s : PageState)
    (hash : Option String) : PageState :=
  match hash with
  | some h =>
    if h ∈ s.sections ∧ h ∈ s.links then ScrollSpy.scrollToSection cfg s h h
    else s
  | none => s

/-- Embeds `updateActiveLink` of navigation.js (lines 136-141): remove the
`active` class from every nav link, then add it to `activeLink`.  It keeps
no `currentActive` field and never touches the ScrollSpy instance. -/
def Nav.updateActiveLink (s : PageState) (activeLink : String) : PageState :=
  let s1 : PageState := { s with activeOf := [] }
  { s1 with activeOf := classAdd s1.activeOf activeLink }

/-- Embeds one intersection-observer delivery of navigation.js (lines
117-128): an intersecting entry for `sectionId` looks up the matching nav
link and, when found, updates the active link unconditionally — there is
no `isScrolling` check and no URL write on this path. -/
def Nav.observerActivate (s : PageState) (sectionId : String) : PageState :=
  match findNavLink s sectionId with
  | some link => Nav.updateActiveLink s link
  | none => s

/-- Embeds the nav-link click handler of navigation.js (lines 71-104): when
the target element exists, the handler dereferences the `.site-header`
lookup (throwing when the header is absent), scrolls, updates the active
link, and pushes `#targetId` onto the history. -/
def Nav.clickNavLink (d : Dom) (s : PageState) (targetId : String) :
    Except String PageState :=
  if targetId ∈ s.sections then
    match Nav.headerHeightInit d with
    | Except.error e => Except.error e
    | Except.ok _ =>
      let s1 : PageState := { s with scrolledTo := some targetId }
      let s2 := Nav.updateActiveLink s1 targetId
      Except.ok { s2 with history := some targetId :: s2.history }
  else Except.ok s

/-- Embeds `setInitialActiveLink` of navigation.js (lines 144-174) with the
100 ms `setTimeout` taken as fired: with a fragment, activate the matching
nav link when it exists and scroll when the target element also exists;
with no fragment, add the `active` class directly to the first nav link. -/
def Nav.setInitialActiveLink (s : PageState) (hash : Option String) : PageState :=
  match hash with
  | some h =>
    if h ∈ s.links then
      let s1 := Nav.updateActiveLink s h
      if h ∈ s1.sections then { s1 with scrolledTo := some h } else s1
    else s
  | none =>
    match s.links with
    | [] => s
    | l :: _ => { s with activeOf := classAdd s.activeOf l }

/-! ## Navigation drawer (`navigation.js` lines 14-66) -/

/-- Drawer-related page state: the `open` class on `#sidebar`, the `active`
class on the overlay, the `aria-expanded` attribute of `#menu-toggle`
(`none` when the markup never set it), and `document.body.style.overflow`. -/
structure DrawerState where
  sidebarOpen : Bool
  overlayActive : Bool
  ariaExpanded : Option String
  bodyOverflow : String
deriving DecidableEq

/-- Embeds `openSidebar` (navigation.js lines 53-58). -/
def openSidebar (s : DrawerState) : DrawerState :=
  { s with sidebarOpen := true, overlayActive := true,
           ariaExpanded := some "true", bodyOverflow := "hidden" }

/-- Embeds `closeSidebar` (navigation.js lines 60-65). -/
def closeSidebar (_s : DrawerState) : DrawerState :=
  { sidebarOpen := false, overlayActive := false,
    ariaExpanded := some "false", bodyOverflow := "" }

/-! ## Concrete example states -/

/-- Example page state: two nav links and matching sections, the first link
active and recorded as current, no scroll in progress, the URL fragment
naming the first section. -/
def exampleIdle : PageState :=
  { links := ["intro", "setup"], sections := ["intro", "setup"],
    activeOf := ["intro"], currentActive := some "intro",
    isScrolling := false, history := [some "intro"], scrolledTo := none }

/-- Example page state: as `exampleIdle` but with an animated scroll in
progress (`isScrolling = true`). -/
def exampleScrolling : PageState :=
  { exampleIdle with isScrolling := true }

/-- Example page state at initial load on a page whose markup already
carries the `active` class on the second nav link: no current link is
recorded and the URL has no fragment. -/
def exampleMarkupActive : PageState :=
  { links := ["intro", "setup"], sections := ["intro", "setup"],
    activeOf := ["setup"], currentActive := none,
    isScrolling := false, history := [none], scrolledTo := none }

/-- Example page state at initial load on a page whose markup carries the
`active` class on no nav link yet. -/
def exampleFresh : PageState :=
  { links := ["intro", "setup"], sections := ["intro", "setup"],
    activeOf := [], currentActive := none,
    isScrolling := false, history := [none], scrolledTo := none }

/-! ## Helper lemmas -/

theorem scrollToSection_activeOf (cfg : SpyConfig) (s : PageState)
    (a b : String) : (ScrollSpy.scrollToSection cfg s a b).activeOf = [b] := by
  cases hu : cfg.updateURL <;> cases hsm : cfg.smoothScroll <;>
    simp [ScrollSpy.scrollToSection, ScrollSpy.updateActiveLink, classAdd, hu, hsm]

theorem scrollToSection_currentActive (cfg : SpyConfig) (s : PageState)
    (a b : String) :
    (ScrollSpy.scrollToSection cfg s a b).currentActive = some b := by
  cases hu : cfg.updateURL <;> cases hsm : cfg.smoothScroll <;>
    simp [ScrollSpy.scrollToSection, ScrollSpy.updateActiveLink, classAdd, hu, hsm]

theorem scrollToSection_scrolledTo (cfg : SpyConfig) (s : PageState)
    (a b : String) :
    (ScrollSpy.scrollToSection cfg s a b).scrolledTo = some a := by
  cases hu : cfg.updateURL <;> cases hsm : cfg.smoothScroll <;>
    simp [ScrollSpy.scrollToSection, ScrollSpy.updateActiveLink, classAdd, hu, hsm]

theorem scrollToSection_isScrolling (cfg : SpyConfig) (s : PageState)
    (a b : String) (h : cfg.smoothScroll = true) :
    (ScrollSpy.scrollToSection cfg s a b).isScrolling = true := by
  cases hu : cfg.updateURL <;>
    simp [ScrollSpy.scrollToSection, ScrollSpy.updateActiveLink, classAdd, hu, h]

theorem scrollToSection_history (cfg : SpyConfig) (s : PageState)
    (a b : String) (h : cfg.updateURL = true) :
    (ScrollSpy.scrollToSection cfg s a b).history = some a :: s.history := by
  cases hsm : cfg.smoothScroll <;>
    simp [ScrollSpy.scrollToSection, ScrollSpy.updateActiveLink, classAdd, hsm, h]

/-! ## Claim C6 -/

/-- C6: for every starting theme state whose document attribute and
persisted value agree on a theme in the set containing light and dark,
applying the theme toggle twice returns the whole state — in particular the
document-level `data-theme` attribute and the persisted storage value — to
its original value. -/
theorem toggleTheme_involutive (s : ThemeState) (t : String)
    (ht : t = "light" ∨ t = "dark") (ha : s.dataTheme = some t)
    (hs : s.stored = some t) : toggleTheme (toggleTheme s) = s := by
  cases s with
  | mk d st sys =>
    rcases ht with rfl | rfl <;> simp_all [toggleTheme, applyTheme]

/-- Witness for C6: toggling twice from the consistent light state returns
to it. -/
theorem toggleTheme_involutive_witness :
    toggleTheme (toggleTheme ⟨some "light", some "light", false⟩) =
      (⟨some "light", some "light", false⟩ : ThemeState) :=
  toggleTheme_involutive ⟨some "light", some "light", false⟩ "light"
    (Or.inl rfl) rfl rfl

/-! ## Claim C7 -/

/-- C7: a system colour-scheme change event re-applies the system theme to
the document exactly when nothing is stored under the theme storage key;
when a (non-empty) preference is stored, the handler leaves the document
attribute and the stored value unchanged (only the recorded media-query
state moves). -/
theorem systemThemeChange_applies_iff_unset (s : ThemeState) (m : Bool) :
    (s.stored = none →
      systemThemeChange s m =
        applyTheme { s with systemDark := m } (systemTheme m)) ∧
    (∀ v, s.stored = some v → v ≠ "" →
      systemThemeChange s m = { s with systemDark := m }) := by
  constructor
  · intro h
    simp [systemThemeChange, strFalsy, h]
  · intro v hv hne
    simp [systemThemeChange, strFalsy, hv, hne]

/-- Witness for C7: with a stored dark preference the handler changes
nothing but the media-query state; with nothing stored it applies the
system theme. -/
theorem systemThemeChange_applies_iff_unset_witness :
    systemThemeChange ⟨some "dark", some "dark", false⟩ true =
      { dataTheme := some "dark", stored := some "dark", systemDark := true } ∧
    systemThemeChange ⟨none, none, false⟩ true =
      applyTheme ⟨none, none, true⟩ (systemTheme true) :=
  ⟨(systemThemeChange_applies_iff_unset ⟨some "dark", some "dark", false⟩
      true).2 "dark" rfl (by decide),
   (systemThemeChange_applies_iff_unset ⟨none, none, false⟩ true).1 rfl⟩

/-! ## Claim C10 -/

/-- C10: every `applyTheme` call persists its argument to storage, and
`initTheme` (called during initialisation) therefore leaves the storage key
set to light or dark whenever the pre-existing stored value is absent or is
itself light or dark. -/
theorem applyTheme_always_persists (s : ThemeState) (t : String) :
    (applyTheme s t).stored = some t ∧
    (s.stored = none ∨ s.stored = some "light" ∨ s.stored = some "dark" →
      (initTheme s).stored = some "light" ∨
      (initTheme s).stored = some "dark") := by
  refine ⟨rfl, ?_⟩
  intro h
  rcases h with h | h | h <;>
    cases hm : s.systemDark <;>
      simp [initTheme, applyTheme, getTheme, systemTheme, h, hm]

/-- Witness for C10: on a fresh browser profile (nothing stored, system
prefers dark) initialisation leaves the key set to light or dark. -/
theorem applyTheme_always_persists_witness :
    (applyTheme ⟨none, none, true⟩ "light").stored = some "light" ∧
    ((initTheme ⟨none, none, true⟩).stored = some "light" ∨
     (initTheme ⟨none, none, true⟩).stored = some "dark") :=
  ⟨(applyTheme_always_persists ⟨none, none, true⟩ "light").1,
   (applyTheme_always_persists ⟨none, none, true⟩ "light").2 (Or.inl rfl)⟩

/-! ## Claim C8 -/

/-- C8 counterexample: from a pre-open state in which the toggle button has
no `aria-expanded` attribute yet and body scrolling is locked, opening and
then closing the drawer does not restore the state that held before
opening (`closeSidebar` writes the fixed values `aria-expanded="false"` and
overflow `""` instead of the saved ones). -/
theorem drawer_close_not_inverse_cex :
    closeSidebar (openSidebar ⟨false, false, none, "hidden"⟩) ≠
      (⟨false, false, none, "hidden"⟩ : DrawerState) := by
  decide

/-- C8 (amended): opening the drawer performs exactly the four effects
(open class on the panel, overlay active, `aria-expanded="true"`, body
scroll locked) — every drawer-related field is set to those values — and
closing after opening always yields the canonical closed state
`closeSidebar s`; that equals the pre-open state exactly when the pre-open
state was already canonical closed (a fixed point of `closeSidebar`). -/
theorem drawer_open_close (s : DrawerState) (hclosed : closeSidebar s = s) :
    openSidebar s = { sidebarOpen := true, overlayActive := true,
                      ariaExpanded := some "true", bodyOverflow := "hidden" } ∧
    closeSidebar (openSidebar s) = closeSidebar s ∧
    closeSidebar (openSidebar s) = s := by
  refine ⟨rfl, rfl, ?_⟩
  calc closeSidebar (openSidebar s) = closeSidebar s := rfl
    _ = s := hclosed

/-- Witness for C8: open-then-close restores the canonical closed state. -/
theorem drawer_open_close_witness :
    openSidebar ⟨false, false, some "false", ""⟩ =
      { sidebarOpen := true, overlayActive := true,
        ariaExpanded := some "true", bodyOverflow := "hidden" } ∧
    closeSidebar (openSidebar ⟨false, false, some "false", ""⟩) =
      closeSidebar ⟨false, false, some "false", ""⟩ ∧
    closeSidebar (openSidebar ⟨false, false, some "false", ""⟩) =
      (⟨false, false, some "false", ""⟩ : DrawerState) :=
  drawer_open_close ⟨false, false, some "false", ""⟩ rfl

theorem mem_classAdd (cs : List String) (c : String) : c ∈ classAdd cs c := by
  unfold classAdd
  split <;> simp [*]

/-! ## Claim C1 -/

/-- C1 counterexample: navigation.js's own IntersectionObserver callback is
a viewport-driven activation path, yet it modifies the active link classes
while the scroll-spy state has `isScrolling = true` — it performs no
`isScrolling` check at all. -/
theorem nav_observer_ignores_isScrolling_cex :
    exampleScrolling.isScrolling = true ∧
    exampleScrolling.activeOf = ["intro"] ∧
    (Nav.observerActivate exampleScrolling "setup").activeOf = ["setup"] := by
  decide

/-- C1 (amended): for scroll-spy.js the suppression holds as stated — while
`isScrolling` is true, `setActiveLink` (and hence every observer- or
polling-driven activation of scroll-spy.js, which all route through it)
leaves the whole page state, in particular `currentActive`, the link
classes and the history, unchanged. -/
theorem setActiveLink_suppressed_while_scrolling (cfg : SpyConfig)
    (s : PageState) (sectionId : String) (h : s.isScrolling = true) :
    ScrollSpy.setActiveLink cfg s sectionId = s ∧
    ScrollSpy.observerActivate cfg s sectionId = s := by
  have h1 : ScrollSpy.setActiveLink cfg s sectionId = s := by
    simp [ScrollSpy.setActiveLink, h]
  exact ⟨h1, h1⟩

/-- Witness for C1's amended theorem: during an animated scroll an
intersection delivery for the other section changes nothing. -/
theorem setActiveLink_suppressed_while_scrolling_witness :
    ScrollSpy.setActiveLink ⟨true, true⟩ exampleScrolling "setup" =
      exampleScrolling ∧
    ScrollSpy.observerActivate ⟨true, true⟩ exampleScrolling "setup" =
      exampleScrolling :=
  setActiveLink_suppressed_while_scrolling ⟨true, true⟩ exampleScrolling
    "setup" rfl

/-! ## Claim C2 -/

/-- C2: a click on a nav link whose fragment names an existing section
makes that link active immediately — with the animated scroll still in
progress (`isScrolling` still true under the deployed `smoothScroll`
configuration) — and pushes the section's fragment as a new history entry;
this holds for the scroll-spy.js click handler, and navigation.js's click
handler likewise activates the link and pushes the fragment (given a page
with a site header). -/
theorem click_activates_and_pushes (cfg : SpyConfig) (d : Dom)
    (s : PageState) (t : String) (hh : Nat)
    (hs : t ∈ s.sections) (hu : cfg.updateURL = true)
    (hsm : cfg.smoothScroll = true) (hd : d.siteHeaderHeight = some hh) :
    ((ScrollSpy.clickNavLink cfg s t).activeOf = [t] ∧
     (ScrollSpy.clickNavLink cfg s t).currentActive = some t ∧
     (ScrollSpy.clickNavLink cfg s t).isScrolling = true ∧
     (ScrollSpy.clickNavLink cfg s t).history = some t :: s.history) ∧
    Nav.clickNavLink d s t =
      Except.ok { s with scrolledTo := some t, activeOf := [t],
                         history := some t :: s.history } := by
  have hc : ScrollSpy.clickNavLink cfg s t =
      ScrollSpy.scrollToSection cfg s t t := by
    simp [ScrollSpy.clickNavLink, hs]
  refine ⟨⟨?_, ?_, ?_, ?_⟩, ?_⟩
  · rw [hc]; exact scrollToSection_activeOf cfg s t t
  · rw [hc]; exact scrollToSection_currentActive cfg s t t
  · rw [hc]; exact scrollToSection_isScrolling cfg s t t hsm
  · rw [hc]; exact scrollToSection_history cfg s t t hu
  · simp [Nav.clickNavLink, Nav.headerHeightInit, Nav.updateActiveLink,
          classAdd, hs, hd]

/-- Witness for C2: clicking the second link from the idle example state. -/
theorem click_activates_and_pushes_witness :
    ((ScrollSpy.clickNavLink ⟨true, true⟩ exampleIdle "setup").activeOf =
        ["setup"] ∧
     (ScrollSpy.clickNavLink ⟨true, true⟩ exampleIdle "setup").currentActive =
        some "setup" ∧
     (ScrollSpy.clickNavLink ⟨true, true⟩ exampleIdle "setup").isScrolling =
        true ∧
     (ScrollSpy.clickNavLink ⟨true, true⟩ exampleIdle "setup").history =
        some "setup" :: exampleIdle.history) ∧
    Nav.clickNavLink ⟨some 64⟩ exampleIdle "setup" =
      Except.ok { exampleIdle with
                  scrolledTo := some "setup",
                  activeOf := ["setup"],
                  history := some "setup" :: exampleIdle.history } :=
  click_activates_and_pushes ⟨true, true⟩ ⟨some 64⟩ exampleIdle "setup" 64
    (by decide) rfl rfl rfl

/-! ## Claim C3 -/

/-- C3 counterexample: navigation.js's viewport-driven activation changes
the active link but performs no history write at all, so afterwards the URL
fragment (still `intro`) does not name the active section (`setup`). -/
theorem nav_observer_no_url_write_cex :
    (Nav.observerActivate exampleIdle "setup").activeOf = ["setup"] ∧
    (Nav.observerActivate exampleIdle "setup").history = [some "intro"] := by
  decide

/-- C3 (amended): scroll-spy.js distinguishes the two paths as claimed —
a user click pushes the fragment as a new history entry, and a passive
viewport-driven activation that changes the active link replaces the
current entry with the fragment, preserving the history length; the
fragment-names-active-section guarantee is limited to scroll-spy-driven
activations, since navigation.js's observer path writes no URL. -/
theorem url_push_and_replace (cfg : SpyConfig) (s : PageState)
    (t sec : String) (hu : cfg.updateURL = true) (ht : t ∈ s.sections)
    (hns : s.isScrolling = false) (hl : sec ∈ s.links)
    (hne : s.currentActive ≠ some sec) (hh : s.history ≠ []) :
    (ScrollSpy.clickNavLink cfg s t).history = some t :: s.history ∧
    (ScrollSpy.setActiveLink cfg s sec).activeOf = [sec] ∧
    (ScrollSpy.setActiveLink cfg s sec).history = some sec :: s.history.tail ∧
    (ScrollSpy.setActiveLink cfg s sec).history.length = s.history.length := by
  have hc : ScrollSpy.clickNavLink cfg s t =
      ScrollSpy.scrollToSection cfg s t t := by
    simp [ScrollSpy.clickNavLink, ht]
  have e : ScrollSpy.setActiveLink cfg s sec =
      { s with activeOf := [sec], currentActive := some sec,
               history := some sec :: s.history.tail } := by
    simp [ScrollSpy.setActiveLink, findNavLink, ScrollSpy.updateActiveLink,
          classAdd, hns, hl, hne, hu]
  refine ⟨?_, ?_, ?_, ?_⟩
  · rw [hc]; exact scrollToSection_history cfg s t t hu
  · rw [e]
  · rw [e]
  · rw [e]
    simp only [List.length_cons, List.length_tail]
    have hpos : 0 < s.history.length := List.length_pos.mpr hh
    omega

/-- Witness for C3's amended theorem: from the idle example state, a click
on `setup` pushes while a viewport activation of `setup` replaces. -/
theorem url_push_and_replace_witness :
    (ScrollSpy.clickNavLink ⟨true, true⟩ exampleIdle "setup").history =
      some "setup" :: exampleIdle.history ∧
    (ScrollSpy.setActiveLink ⟨true, true⟩ exampleIdle "setup").activeOf =
      ["setup"] ∧
    (ScrollSpy.setActiveLink ⟨true, true⟩ exampleIdle "setup").history =
      some "setup" :: exampleIdle.history.tail ∧
    (ScrollSpy.setActiveLink ⟨true, true⟩ exampleIdle "setup").history.length =
      exampleIdle.history.length :=
  url_push_and_replace ⟨true, true⟩ exampleIdle "setup" "setup" rfl
    (by decide) rfl (by decide) (by decide) (by decide)

/-! ## Claim C4 -/

/-- C4: at initial load, a URL fragment matching a known nav link whose
target element exists leads (once the short `setTimeout` delay has fired)
to that link being the active one and the page having scrolled to the
section, in both scroll-spy.js and navigation.js; with no fragment, the
first nav link is made active in both. -/
theorem initial_load_activation (cfg : SpyConfig) (s : PageState)
    (h first : String) (rest : List String)
    (hl : h ∈ s.links) (hsec : h ∈ s.sections)
    (hfirst : s.links = first :: rest) :
    ((ScrollSpy.handleInitialLoad cfg s (some h)).activeOf = [h] ∧
     (ScrollSpy.handleInitialLoad cfg s (some h)).scrolledTo = some h) ∧
    first ∈ (ScrollSpy.handleInitialLoad cfg s none).activeOf ∧
    ((Nav.setInitialActiveLink s (some h)).activeOf = [h] ∧
     (Nav.setInitialActiveLink s (some h)).scrolledTo = some h) ∧
    first ∈ (Nav.setInitialActiveLink s none).activeOf := by
  have e1 : ScrollSpy.handleInitialLoad cfg s (some h) =
      ScrollSpy.scrollToSection cfg s h h := by
    simp [ScrollSpy.handleInitialLoad, hl, hsec]
  refine ⟨⟨?_, ?_⟩, ?_, ⟨?_, ?_⟩, ?_⟩
  · rw [e1]; exact scrollToSection_activeOf cfg s h h
  · rw [e1]; exact scrollToSection_scrolledTo cfg s h h
  · simp [ScrollSpy.handleInitialLoad, hfirst, mem_classAdd]
  · simp [Nav.setInitialActiveLink, Nav.updateActiveLink, classAdd, hl, hsec]
  · simp [Nav.setInitialActiveLink, Nav.updateActiveLink, classAdd, hl, hsec]
  · simp [Nav.setInitialActiveLink, hfirst, mem_classAdd]

/-- Witness for C4: loading with fragment `setup` activates and scrolls to
it; loading without a fragment activates `intro`, the first link. -/
theorem initial_load_activation_witness :
    ((ScrollSpy.handleInitialLoad ⟨true, true⟩ exampleIdle
        (some "setup")).activeOf = ["setup"] ∧
     (ScrollSpy.handleInitialLoad ⟨true, true⟩ exampleIdle
        (some "setup")).scrolledTo = some "setup") ∧
    "intro" ∈ (ScrollSpy.handleInitialLoad ⟨true, true⟩ exampleIdle
        none).activeOf ∧
    ((Nav.setInitialActiveLink exampleIdle (some "setup")).activeOf =
        ["setup"] ∧
     (Nav.setInitialActiveLink exampleIdle (some "setup")).scrolledTo =
        some "setup") ∧
    "intro" ∈ (Nav.setInitialActiveLink exampleIdle none).activeOf :=
  initial_load_activation ⟨true, true⟩ exampleIdle "setup" "intro" ["setup"]
    (by decide) (by decide) rfl

/-! ## Claim C5 -/

/-- C5 counterexample: on a page with no `.site-header`, navigation.js's
module-level header lookup dereferences `null` and throws instead of making
the feature a no-op, and its click handler fails the same way rather than
degrading. -/
theorem missing_header_throws_cex :
    Nav.headerHeightInit ⟨none⟩ =
      Except.error "TypeError: null has no offsetHeight" ∧
    Nav.clickNavLink ⟨none⟩ exampleIdle "setup" =
      Except.error "TypeError: null has no offsetHeight" := by
  exact ⟨rfl, rfl⟩

/-- C5 (amended): scroll-spy.js's header lookup is tolerant — it always
yields a height, falling back to 64 when the header is missing — whereas
navigation.js's unguarded lookup only succeeds when the header exists and
throws a TypeError when it does not. -/
theorem header_lookup_divergence (d : Dom) (hh : Nat) :
    (d.siteHeaderHeight = some hh →
      Nav.headerHeightInit d = Except.ok hh ∧
      ScrollSpy.headerHeight d = hh) ∧
    (d.siteHeaderHeight = none →
      Nav.headerHeightInit d =
        Except.error "TypeError: null has no offsetHeight" ∧
      ScrollSpy.headerHeight d = 64) := by
  constructor <;> intro h <;>
    simp [Nav.headerHeightInit, ScrollSpy.headerHeight, h]

/-- Witness for C5's amended theorem at a present and an absent header. -/
theorem header_lookup_divergence_witness :
    (Nav.headerHeightInit ⟨some 48⟩ = Except.ok 48 ∧
     ScrollSpy.headerHeight ⟨some 48⟩ = 48) ∧
    (Nav.headerHeightInit ⟨none⟩ =
       Except.error "TypeError: null has no offsetHeight" ∧
     ScrollSpy.headerHeight ⟨none⟩ = 64) :=
  ⟨(header_lookup_divergence ⟨some 48⟩ 48).1 rfl,
   (header_lookup_divergence ⟨none⟩ 0).2 rfl⟩

/-! ## Claim C9 -/

/-- C9 counterexample: the initial-load default path adds the `active`
class to the first nav link without first clearing the others, so on a page
whose markup already marks the second link active, two links carry the
class after the initial-load activation. -/
theorem initial_load_two_active_cex :
    (ScrollSpy.handleInitialLoad ⟨true, true⟩ exampleMarkupActive
        none).activeOf = ["intro", "setup"] ∧
    (ScrollSpy.handleInitialLoad ⟨true, true⟩ exampleMarkupActive
        none).activeOf.length = 2 := by
  decide

/-- C9 (amended): click, viewport-driven and popstate activations all route
through an update that first removes the `active` class from every nav
link, so afterwards at most one link is active (or the state is unchanged);
the initial-load paths instead only guarantee this when no link was active
beforehand, because their default branch adds the class without clearing. -/
theorem at_most_one_active (cfg : SpyConfig) (s : PageState)
    (sid : String) (hash : Option String) :
    ((ScrollSpy.clickNavLink cfg s sid).activeOf.length ≤ 1 ∨
      ScrollSpy.clickNavLink cfg s sid = s) ∧
    ((ScrollSpy.setActiveLink cfg s sid).activeOf.length ≤ 1 ∨
      ScrollSpy.setActiveLink cfg s sid = s) ∧
    ((Nav.observerActivate s sid).activeOf.length ≤ 1 ∨
      Nav.observerActivate s sid = s) ∧
    ((ScrollSpy.popstateActivate cfg s hash).activeOf.length ≤ 1 ∨
      ScrollSpy.popstateActivate cfg s hash = s) ∧
    (s.activeOf = [] →
      (ScrollSpy.handleInitialLoad cfg s hash).activeOf.length ≤ 1) ∧
    (s.activeOf = [] →
      (Nav.setInitialActiveLink s hash).activeOf.length ≤ 1) := by
  refine ⟨?_, ?_, ?_, ?_, ?_, ?_⟩
  · by_cases hs : sid ∈ s.sections
    · left
      have hc : ScrollSpy.clickNavLink cfg s sid =
          ScrollSpy.scrollToSection cfg s sid sid := by
        simp [ScrollSpy.clickNavLink, hs]
      rw [hc, scrollToSection_activeOf]
      simp
    · right
      simp [ScrollSpy.clickNavLink, hs]
  · by_cases hsc : s.isScrolling = true
    · right
      simp [ScrollSpy.setActiveLink, hsc]
    · by_cases hl : sid ∈ s.links
      · by_cases hcur : s.currentActive = some sid
        · right
          simp [ScrollSpy.setActiveLink, findNavLink, hsc, hl, hcur]
        · left
          have ha : (ScrollSpy.setActiveLink cfg s sid).activeOf = [sid] := by
            cases hu : cfg.updateURL <;>
              simp [ScrollSpy.setActiveLink, findNavLink,
                    ScrollSpy.updateActiveLink, classAdd, hsc, hl, hcur, hu]
          rw [ha]
          simp
      · right
        simp [ScrollSpy.setActiveLink, findNavLink, hsc, hl]
  · by_cases hl : sid ∈ s.links
    · left
      have ha : (Nav.observerActivate s sid).activeOf = [sid] := by
        simp [Nav.observerActivate, findNavLink, Nav.updateActiveLink,
              classAdd, hl]
      rw [ha]
      simp
    · right
      simp [Nav.observerActivate, findNavLink, hl]
  · cases hash with
    | none => right; rfl
    | some h =>
      by_cases hc : h ∈ s.sections ∧ h ∈ s.links
      · left
        have e : ScrollSpy.popstateActivate cfg s (some h) =
            ScrollSpy.scrollToSection cfg s h h := by
          simp [ScrollSpy.popstateActivate, hc]
        rw [e, scrollToSection_activeOf]
        simp
      · right
        simp [ScrollSpy.popstateActivate, hc]
  · intro hempty
    cases hash with
    | some h =>
      by_cases hc : h ∈ s.links ∧ h ∈ s.sections
      · have e : ScrollSpy.handleInitialLoad cfg s (some h) =
            ScrollSpy.scrollToSection cfg s h h := by
          simp [ScrollSpy.handleInitialLoad, hc]
        rw [e, scrollToSection_activeOf]
        simp
      · simp [ScrollSpy.handleInitialLoad, hc, hempty]
    | none =>
      cases hlinks : s.links with
      | nil => simp [ScrollSpy.handleInitialLoad, hlinks, hempty]
      | cons l ls => simp [ScrollSpy.handleInitialLoad, hlinks, hempty, classAdd]
  · intro hempty
    cases hash with
    | some h =>
      by_cases hl : h ∈ s.links
      · by_cases hs : h ∈ s.sections <;>
          simp [Nav.setInitialActiveLink, Nav.updateActiveLink, classAdd,
                hl, hs]
      · simp [Nav.setInitialActiveLink, hl, hempty]
    | none =>
      cases hlinks : s.links with
      | nil => simp [Nav.setInitialActiveLink, hlinks, hempty]
      | cons l ls => simp [Nav.setInitialActiveLink, hlinks, hempty, classAdd]

/-- Witness for C9's amended theorem: from a fresh page state with no
active link, both initial-load paths leave at most one link active. -/
theorem at_most_one_active_witness :
    exampleFresh.activeOf = [] ∧
    (ScrollSpy.handleInitialLoad ⟨true, true⟩ exampleFresh
        none).activeOf.length ≤ 1 ∧
    (Nav.setInitialActiveLink exampleFresh none).activeOf.length ≤ 1 :=
  ⟨rfl,
   (at_most_one_active ⟨true, true⟩ exampleFresh "setup" none).2.2.2.2.1 rfl,
   (at_most_one_active ⟨true, true⟩ exampleFresh "setup" none).2.2.2.2.2 rfl⟩

end DocuFlow
